import Mathlib

/-!
Shallow embedding of the EcoLearners Platform backend (`src/backend/main.py`).

The SQLAlchemy tables become Lean structures, the database becomes a `DB`
record of lists (rows in insertion order, as SQLite returns them absent an
ORDER BY), and each FastAPI endpoint that the specification's claims touch
becomes a pure function `… → DB → Except ApiError DB` (or a pure query).
Autoincremented primary keys are passed in as explicit `fresh` arguments.
HTTP failures (`raise HTTPException`) become `Except.error`; since the code
raises before mutating (and SQLAlchemy rolls back uncommitted work), an
error leaves the database unchanged.
-/

namespace Eco

/-- Table `users` (class `User`). -/
structure User where
  id : Nat
  email : String
  name : String
  role : String
  points : Int
  deriving DecidableEq, Repr

/-- Table `user_profiles` (class `UserProfile`). Dates and free-text fields
are uninterpreted strings. -/
structure UserProfile where
  id : Nat
  user_id : Nat
  register_number : Option String
  date_of_birth : Option String
  gender : Option String
  address : Option String
  residence : Option String
  deriving DecidableEq, Repr

/-- Table `lessons` (class `Lesson`). -/
structure Lesson where
  id : Nat
  title : String
  description : String
  video_url : String
  deriving DecidableEq, Repr

/-- Table `quizzes` (class `Quiz`). -/
structure Quiz where
  id : Nat
  lesson_id : Nat
  deriving DecidableEq, Repr

/-- Table `questions` (class `Question`). -/
structure Question where
  id : Nat
  quiz_id : Nat
  question_text : String
  deriving DecidableEq, Repr

/-- Table `quiz_submissions` (class `QuizSubmission`). `score` is a nullable
integer column (`NULL` until graded), hence `Option Int`. -/
structure QuizSubmission where
  id : Nat
  quiz_id : Nat
  user_id : Nat
  score : Option Int
  is_graded : Bool
  deriving DecidableEq, Repr

/-- Table `answers` (class `Answer`). -/
structure Answer where
  submission_id : Nat
  question_id : Nat
  answer_text : String
  deriving DecidableEq, Repr

/-- Table `assigned_tasks` (class `AssignedTask`); `deadline` is an
uninterpreted timestamp. -/
structure AssignedTask where
  id : Nat
  title : String
  description : String
  points : Int
  deadline : Int
  deriving DecidableEq, Repr

/-- Table `task_submissions` (class `TaskSubmission`); the stored filename is
a character sequence. -/
structure TaskSubmission where
  id : Nat
  task_id : Nat
  user_id : Nat
  filename : List Char
  approved : Bool
  points_awarded : Int
  deriving DecidableEq, Repr

/-- Table `games` (class `Game`). -/
structure Game where
  id : Nat
  name : String
  url : String
  skill : String
  deriving DecidableEq, Repr

/-- Table `game_scores` (class `GameScore`). -/
structure GameScore where
  id : Nat
  user_id : Nat
  game_id : Nat
  score : Int
  deriving DecidableEq, Repr

/-- Table `notices` (class `Notice`); only the message matters to the
endpoints modelled here. -/
structure Notice where
  message : String
  deriving DecidableEq, Repr

/-- The whole relational store: one list of rows per table, in insertion
order. -/
structure DB where
  users : List User
  profiles : List UserProfile
  lessons : List Lesson
  quizzes : List Quiz
  questions : List Question
  quizSubs : List QuizSubmission
  answers : List Answer
  tasks : List AssignedTask
  taskSubs : List TaskSubmission
  games : List Game
  gameScores : List GameScore
  notices : List Notice
  deriving DecidableEq, Repr

/-- The HTTP errors the endpoints below can raise, one constructor per
distinct `HTTPException` site. `notFoundOrAlreadyGraded` is the single 404
`"Not found or already graded."` both grading endpoints raise. -/
inductive ApiError where
  | forbidden
  | quizNotFound
  | alreadySubmittedQuiz
  | alreadySubmittedTask
  | notFoundOrAlreadyGraded
  | gameNotFound
  | lessonNotFound
  | studentNotFound
  | deadlinePast
  deriving DecidableEq, Repr

/-- Decimal digits of a positive number, most significant first; the fuel
argument (any bound ≥ n) makes the recursion structural. This is how Python
renders an `int` inside an f-string. -/
def decReprAux : Nat → Nat → List Char
  | 0, _ => []
  | _ + 1, 0 => []
  | fuel + 1, n + 1 => decReprAux fuel ((n + 1) / 10) ++ [Char.ofNat (48 + (n + 1) % 10)]

/-- Python `str(n)` for a natural number `n`. -/
def decRepr (n : Nat) : List Char :=
  if n = 0 then ['0'] else decReprAux n n

/-- Line 453: `filename = f"{user.id}_{task_id}_{file.filename}"`. -/
def storedFilename (user_id task_id : Nat) (orig : List Char) : List Char :=
  decRepr user_id ++ '_' :: decRepr task_id ++ '_' :: orig

/-- Endpoint `POST /notice` (`post_notice`, lines 338-344): teacher only;
deletes every existing notice, then inserts the new one. -/
def post_notice (role : String) (message : String) (db : DB) : Except ApiError DB :=
  if role ≠ "teacher" then .error .forbidden
  else .ok { db with notices := [{ message := message }] }

/-- Endpoint `POST /quizzes/{quiz_id}/submit` (`submit_quiz`, lines 404-420):
404 if the quiz does not exist, 400 if this user already has a submission for
it, otherwise insert one ungraded submission plus its answers. -/
def submit_quiz (user_id quiz_id : Nat) (answers_in : List (Nat × String))
    (fresh : Nat) (db : DB) : Except ApiError DB :=
  match db.quizzes.find? (fun q => q.id == quiz_id) with
  | none => .error .quizNotFound
  | some _ =>
    if (db.quizSubs.find? (fun s => s.user_id == user_id && s.quiz_id == quiz_id)).isSome then
      .error .alreadySubmittedQuiz
    else
      let newAnswers : List Answer := answers_in.map
        (fun a => { submission_id := fresh, question_id := a.1, answer_text := a.2 })
      .ok { db with
        quizSubs := db.quizSubs ++
          [{ id := fresh, quiz_id := quiz_id, user_id := user_id, score := none,
             is_graded := false }],
        answers := db.answers ++ newAnswers }

/-- Endpoint `POST /tasks/{task_id}/submit` (`submit_task`, lines 449-457):
400 if this user already has a submission for the task; no check that the
task exists; stores the file and inserts an unapproved submission with
`points_awarded = 0`. -/
def submit_task (user_id task_id : Nat) (orig : List Char) (fresh : Nat)
    (db : DB) : Except ApiError DB :=
  if (db.taskSubs.find? (fun s => s.user_id == user_id && s.task_id == task_id)).isSome then
    .error .alreadySubmittedTask
  else
    .ok { db with taskSubs := db.taskSubs ++
      [{ id := fresh, task_id := task_id, user_id := user_id,
         filename := storedFilename user_id task_id orig, approved := false,
         points_awarded := 0 }] }

/-- Endpoint `POST /submissions/tasks/{submission_id}/grade`
(`grade_task_submission`, lines 463-471): teacher only; 404 if the submission
is missing or already approved; otherwise sets `approved`/`points_awarded`
and adds the points to the owning student's `points`, in one commit. -/
def grade_task_submission (role : String) (submission_id : Nat) (points : Int)
    (db : DB) : Except ApiError DB :=
  if role ≠ "teacher" then .error .forbidden
  else match db.taskSubs.find? (fun s => s.id == submission_id) with
    | none => .error .notFoundOrAlreadyGraded
    | some sub =>
      if sub.approved then .error .notFoundOrAlreadyGraded
      else .ok { db with
        taskSubs := db.taskSubs.map (fun s =>
          if s.id == submission_id then
            { s with approved := true, points_awarded := points } else s),
        users := db.users.map (fun u =>
          if u.id == sub.user_id then { u with points := u.points + points } else u) }

/-- Endpoint `POST /submissions/quizzes/{submission_id}/grade`
(`grade_quiz_submission`, lines 489-497): teacher only; 404 if the submission
is missing or already graded; otherwise sets `is_graded`/`score` and adds the
score to the owning student's `points`, in one commit. -/
def grade_quiz_submission (role : String) (submission_id : Nat) (score : Int)
    (db : DB) : Except ApiError DB :=
  if role ≠ "teacher" then .error .forbidden
  else match db.quizSubs.find? (fun s => s.id == submission_id) with
    | none => .error .notFoundOrAlreadyGraded
    | some sub =>
      if sub.is_graded then .error .notFoundOrAlreadyGraded
      else .ok { db with
        quizSubs := db.quizSubs.map (fun s =>
          if s.id == submission_id then
            { s with is_graded := true, score := some score } else s),
        users := db.users.map (fun u =>
          if u.id == sub.user_id then { u with points := u.points + score } else u) }

/-- Endpoint `GET /leaderboard` (lines 498-500): students only, ordered by
`points` descending (stable, so ties keep insertion order), limited to 10. -/
def leaderboard (db : DB) : List User :=
  ((db.users.filter (fun u => u.role == "student")).mergeSort
    (fun a b => b.points ≤ a.points)).take 10

/-- The report returned by `GET /reports/student/{student_id}`
(`StudentReportOut`). Python's float skill averages become rationals. -/
structure StudentReportOut where
  user : User
  academic_score : Int
  soft_skills : List (String × ℚ)
  deriving DecidableEq, Repr

/-- Python dict lookup on an association list with distinct keys. -/
def lookupSkill {α : Type} : List (String × α) → String → Option α
  | [], _ => none
  | (k, v) :: rest, sk => if k == sk then some v else lookupSkill rest sk

/-- One loop iteration of lines 363-366: `skills.setdefault(skill, []).append(v)`
on an insertion-ordered dict. -/
def addScore (m : List (String × List Int)) (sk : String) (v : Int) :
    List (String × List Int) :=
  match m with
  | [] => [(sk, [v])]
  | (k, vs) :: rest =>
    if k == sk then (k, vs ++ [v]) :: rest else (k, vs) :: addScore rest sk v

/-- The `skills` dict built by the loop in lines 362-366, skipping scores
whose game no longer exists (`if score.game:`). -/
def buildSkills (games : List Game) (scores : List GameScore) :
    List (String × List Int) :=
  scores.foldl (fun m s =>
    match games.find? (fun g => g.id == s.game_id) with
    | none => m
    | some g => addScore m g.skill s.score) []

/-- Endpoint `GET /reports/student/{student_id}` (`get_student_report`,
lines 352-368). The two SQL `SUM(...)` aggregates skip NULLs and default to 0
(`... .scalar() or 0`), hence the `Option.getD 0` on the nullable quiz score. -/
def get_student_report (caller : User) (student_id : Nat) (db : DB) :
    Except ApiError StudentReportOut :=
  if caller.role ≠ "teacher" ∧ caller.id ≠ student_id then .error .forbidden
  else match db.users.find? (fun u => u.id == student_id) with
    | none => .error .studentNotFound
    | some student =>
      if student.role ≠ "student" then .error .studentNotFound
      else
        let task_points :=
          (((db.taskSubs.filter (fun s => s.user_id == student_id)).map
            (fun s => s.points_awarded)).sum : Int)
        let quiz_points :=
          (((db.quizSubs.filter (fun s => s.user_id == student_id)).map
            (fun s => s.score.getD 0)).sum : Int)
        let game_scores := db.gameScores.filter (fun s => s.user_id == student_id)
        let skills := buildSkills db.games game_scores
        let avg_skills := skills.map (fun p => (p.1, (p.2.sum : ℚ) / (p.2.length : ℚ)))
        .ok { user := student, academic_score := task_points + quiz_points,
              soft_skills := avg_skills }

/-- Endpoint `PUT /profile` (`update_profile`, lines 294-308): renames the
authenticated user and creates or overwrites their profile row. -/
def update_profile (user_id : Nat) (pname : String)
    (reg dob gen addr res : Option String) (fresh : Nat) (db : DB) :
    Except ApiError DB :=
  .ok { db with
    users := db.users.map (fun u => if u.id == user_id then { u with name := pname } else u),
    profiles :=
      if (db.profiles.find? (fun p => p.user_id == user_id)).isSome then
        db.profiles.map (fun p =>
          if p.user_id == user_id then
            { p with register_number := reg, date_of_birth := dob, gender := gen,
                     address := addr, residence := res } else p)
      else
        db.profiles ++
          [{ id := fresh, user_id := user_id, register_number := reg,
             date_of_birth := dob, gender := gen, address := addr, residence := res }] }

/-- Endpoint `POST /games` (`add_game`, lines 314-319): teacher only. -/
def add_game (role : String) (gname gurl gskill : String) (fresh : Nat) (db : DB) :
    Except ApiError DB :=
  if role ≠ "teacher" then .error .forbidden
  else .ok { db with games := db.games ++ [{ id := fresh, name := gname, url := gurl, skill := gskill }] }

/-- Endpoint `DELETE /games/{game_id}` (`delete_game`, lines 320-326): teacher
only; deleting a game cascades to its scores (line 143). -/
def delete_game (role : String) (game_id : Nat) (db : DB) : Except ApiError DB :=
  if role ≠ "teacher" then .error .forbidden
  else if (db.games.find? (fun g => g.id == game_id)).isSome then
    .ok { db with
      games := db.games.filter (fun g => g.id != game_id),
      gameScores := db.gameScores.filter (fun s => s.game_id != game_id) }
  else .error .gameNotFound

/-- Endpoint `POST /games/submit-score` (`submit_game_score`, lines 327-331):
no existence check on the game; inserts the score row. -/
def submit_game_score (user_id game_id : Nat) (score : Int) (fresh : Nat)
    (db : DB) : Except ApiError DB :=
  .ok { db with gameScores := db.gameScores ++
    [{ id := fresh, user_id := user_id, game_id := game_id, score := score }] }

/-- Endpoint `POST /lessons` (`create_lesson`, lines 374-377): teacher only. -/
def create_lesson (role : String) (title descr vid : String) (fresh : Nat)
    (db : DB) : Except ApiError DB :=
  if role ≠ "teacher" then .error .forbidden
  else .ok { db with lessons := db.lessons ++
    [{ id := fresh, title := title, description := descr, video_url := vid }] }

/-- Endpoint `POST /lessons/{lesson_id}/quizzes` (`create_or_update_quiz`,
lines 378-392): teacher only; 404 on a missing lesson; replaces the questions
of the lesson's existing quiz, or creates a quiz, then appends the new
questions. -/
def create_or_update_quiz (role : String) (lesson_id : Nat) (qtexts : List String)
    (freshQuizId : Nat) (freshQuestionIds : List Nat) (db : DB) :
    Except ApiError DB :=
  if role ≠ "teacher" then .error .forbidden
  else match db.lessons.find? (fun l => l.id == lesson_id) with
    | none => .error .lessonNotFound
    | some _ =>
      match db.quizzes.find? (fun q => q.lesson_id == lesson_id) with
      | some quiz =>
        let newQs : List Question := (freshQuestionIds.zip qtexts).map
          (fun x => { id := x.1, quiz_id := quiz.id, question_text := x.2 })
        .ok { db with questions :=
          (db.questions.filter (fun q => q.quiz_id != quiz.id)) ++ newQs }
      | none =>
        let newQs : List Question := (freshQuestionIds.zip qtexts).map
          (fun x => { id := x.1, quiz_id := freshQuizId, question_text := x.2 })
        .ok { db with
          quizzes := db.quizzes ++ [{ id := freshQuizId, lesson_id := lesson_id }],
          questions := db.questions ++ newQs }

/-- Endpoint `POST /tasks/assign` (`assign_task`, lines 421-434): teacher
only; `deadlineOk` stands for the runtime check `task.deadline >= date.today()`. -/
def assign_task (role : String) (title descr : String) (pts : Int)
    (deadlineOk : Bool) (deadline : Int) (fresh : Nat) (db : DB) :
    Except ApiError DB :=
  if role ≠ "teacher" then .error .forbidden
  else if ¬ deadlineOk then .error .deadlinePast
  else .ok { db with tasks := db.tasks ++
    [{ id := fresh, title := title, description := descr, points := pts,
       deadline := deadline }] }

/-- One call to any endpoint of the API that writes to the database, with its
request parameters. -/
inductive Op where
  | updateProfile (user_id : Nat) (pname : String)
      (reg dob gen addr res : Option String) (fresh : Nat)
  | addGame (role : String) (gname gurl gskill : String) (fresh : Nat)
  | deleteGame (role : String) (game_id : Nat)
  | submitGameScore (user_id game_id : Nat) (score : Int) (fresh : Nat)
  | postNotice (role : String) (message : String)
  | createLesson (role : String) (title descr vid : String) (fresh : Nat)
  | saveQuiz (role : String) (lesson_id : Nat) (qtexts : List String)
      (freshQuizId : Nat) (freshQuestionIds : List Nat)
  | submitQuiz (user_id quiz_id : Nat) (answers_in : List (Nat × String)) (fresh : Nat)
  | assignTask (role : String) (title descr : String) (pts : Int)
      (deadlineOk : Bool) (deadline : Int) (fresh : Nat)
  | submitTask (user_id task_id : Nat) (orig : List Char) (fresh : Nat)
  | gradeTask (role : String) (submission_id : Nat) (points : Int)
  | gradeQuiz (role : String) (submission_id : Nat) (score : Int)
  deriving DecidableEq, Repr

/-- Dispatch an operation to its endpoint. -/
def Op.run : Op → DB → Except ApiError DB
  | .updateProfile uid pname reg dob gen addr res fresh =>
      update_profile uid pname reg dob gen addr res fresh
  | .addGame role gname gurl gskill fresh => add_game role gname gurl gskill fresh
  | .deleteGame role gid => delete_game role gid
  | .submitGameScore uid gid sc fresh => submit_game_score uid gid sc fresh
  | .postNotice role msg => post_notice role msg
  | .createLesson role t d v fresh => create_lesson role t d v fresh
  | .saveQuiz role lid qtexts fq fqs => create_or_update_quiz role lid qtexts fq fqs
  | .submitQuiz uid qid ans fresh => submit_quiz uid qid ans fresh
  | .assignTask role t d pts ok dl fresh => assign_task role t d pts ok dl fresh
  | .submitTask uid tid orig fresh => submit_task uid tid orig fresh
  | .gradeTask role sid pts => grade_task_submission role sid pts
  | .gradeQuiz role sid sc => grade_quiz_submission role sid sc

/-- The database after an operation: its result on success, unchanged on an
HTTP error (the handler raises before any write, or rolls back). -/
def post (o : Op) (db : DB) : DB :=
  match o.run db with
  | .ok db2 => db2
  | .error _ => db

/-- The database after a whole sequence of API calls. -/
def postAll (ops : List Op) (db : DB) : DB :=
  ops.foldl (fun d o => post o d) db

/-- The grading-engine operations (the only writers of `User.points`). -/
def Op.isGrade : Op → Prop
  | .gradeTask _ _ _ => True
  | .gradeQuiz _ _ _ => True
  | _ => False

/-- The operation's awarded points are non-negative (vacuously true off the
grading engine). -/
def Op.awardNonneg : Op → Prop
  | .gradeTask _ _ p => 0 ≤ p
  | .gradeQuiz _ _ p => 0 ≤ p
  | _ => True

/-- The points of the user with a given id, 0 when absent. -/
def pointsOf (db : DB) (uid : Nat) : Int :=
  ((db.users.find? (fun u => u.id == uid)).map (fun u => u.points)).getD 0

/-- The successful result of `grade_task_submission`: the submission row is
approved with the awarded points and the owning user's points grow by them. -/
def gradeTaskUpdate (sid : Nat) (p : Int) (uid : Nat) (db : DB) : DB :=
  { db with
    taskSubs := db.taskSubs.map (fun s =>
      if s.id == sid then { s with approved := true, points_awarded := p } else s),
    users := db.users.map (fun u =>
      if u.id == uid then { u with points := u.points + p } else u) }

/-- The successful result of `grade_quiz_submission`. -/
def gradeQuizUpdate (sid : Nat) (p : Int) (uid : Nat) (db : DB) : DB :=
  { db with
    quizSubs := db.quizSubs.map (fun s =>
      if s.id == sid then { s with is_graded := true, score := some p } else s),
    users := db.users.map (fun u =>
      if u.id == uid then { u with points := u.points + p } else u) }

theorem find?_map_pres {α : Type} (f : α → α) (p : α → Bool) (l : List α)
    (h : ∀ a, p (f a) = p a) : (l.map f).find? p = (l.find? p).map f := by
  induction l with
  | nil => rfl
  | cons a t ih =>
    cases hp : p a
    · rw [List.map_cons, List.find?_cons_of_neg _ (by rw [h a, hp]; exact Bool.false_ne_true),
        List.find?_cons_of_neg _ (by rw [hp]; exact Bool.false_ne_true), ih]
    · rw [List.map_cons, List.find?_cons_of_pos _ (by rw [h a, hp]),
        List.find?_cons_of_pos _ hp, Option.map_some']

theorem gradeTask_run_ok (db : DB) (sid : Nat) (p : Int) (ts : TaskSubmission)
    (h1 : db.taskSubs.find? (fun s => s.id == sid) = some ts)
    (h2 : ts.approved = false) :
    grade_task_submission "teacher" sid p db =
      .ok (gradeTaskUpdate sid p ts.user_id db) := by
  unfold grade_task_submission gradeTaskUpdate
  rw [if_neg (by simp), h1]
  simp [h2]

theorem gradeQuiz_run_ok (db : DB) (sid : Nat) (p : Int) (qs : QuizSubmission)
    (h1 : db.quizSubs.find? (fun s => s.id == sid) = some qs)
    (h2 : qs.is_graded = false) :
    grade_quiz_submission "teacher" sid p db =
      .ok (gradeQuizUpdate sid p qs.user_id db) := by
  unfold grade_quiz_submission gradeQuizUpdate
  rw [if_neg (by simp), h1]
  simp [h2]

theorem gradeTaskUpdate_find?_taskSubs (db : DB) (sid : Nat) (p : Int) (uid : Nat)
    (ts : TaskSubmission)
    (h1 : db.taskSubs.find? (fun s => s.id == sid) = some ts) :
    (gradeTaskUpdate sid p uid db).taskSubs.find? (fun s => s.id == sid) =
      some { ts with approved := true, points_awarded := p } := by
  have hts : ts.id = sid := by simpa using List.find?_some h1
  show List.find? (fun s => s.id == sid) (db.taskSubs.map (fun s =>
    if s.id == sid then { s with approved := true, points_awarded := p } else s)) = _
  rw [find?_map_pres _ _ _ (by intro a; cases ha : a.id == sid <;> simp [ha]), h1]
  simp [hts]

theorem gradeQuizUpdate_find?_quizSubs (db : DB) (sid : Nat) (p : Int) (uid : Nat)
    (qs : QuizSubmission)
    (h1 : db.quizSubs.find? (fun s => s.id == sid) = some qs) :
    (gradeQuizUpdate sid p uid db).quizSubs.find? (fun s => s.id == sid) =
      some { qs with is_graded := true, score := some p } := by
  have hqs : qs.id = sid := by simpa using List.find?_some h1
  show List.find? (fun s => s.id == sid) (db.quizSubs.map (fun s =>
    if s.id == sid then { s with is_graded := true, score := some p } else s)) = _
  rw [find?_map_pres _ _ _ (by intro a; cases ha : a.id == sid <;> simp [ha]), h1]
  simp [hqs]

theorem usersAward_find? (users : List User) (uid : Nat) (p : Int) (owner : User)
    (h : users.find? (fun u => u.id == uid) = some owner) :
    (users.map (fun u => if u.id == uid then { u with points := u.points + p } else u)).find?
        (fun u => u.id == uid) = some { owner with points := owner.points + p } := by
  have ho : owner.id = uid := by simpa using List.find?_some h
  rw [find?_map_pres _ _ _ (by intro a; cases ha : a.id == uid <;> simp [ha]), h]
  simp [ho]

theorem pointsOf_gradeTaskUpdate (db : DB) (sid : Nat) (p : Int) (uid : Nat)
    (owner : User) (h : db.users.find? (fun u => u.id == uid) = some owner) :
    pointsOf (gradeTaskUpdate sid p uid db) uid = owner.points + p := by
  unfold pointsOf
  rw [show (gradeTaskUpdate sid p uid db).users = db.users.map (fun u =>
    if u.id == uid then { u with points := u.points + p } else u) from rfl]
  rw [usersAward_find? db.users uid p owner h]
  rfl

theorem pointsOf_gradeQuizUpdate (db : DB) (sid : Nat) (p : Int) (uid : Nat)
    (owner : User) (h : db.users.find? (fun u => u.id == uid) = some owner) :
    pointsOf (gradeQuizUpdate sid p uid db) uid = owner.points + p := by
  unfold pointsOf
  rw [show (gradeQuizUpdate sid p uid db).users = db.users.map (fun u =>
    if u.id == uid then { u with points := u.points + p } else u) from rfl]
  rw [usersAward_find? db.users uid p owner h]
  rfl

/-- A small concrete store: one student with 100 points, one teacher, one
ungraded task submission and one ungraded quiz submission. -/
def dbSample : DB where
  users := [{ id := 1, email := "demo@student.local", name := "Demo Student",
              role := "student", points := 100 },
            { id := 2, email := "teacher@school.local", name := "Demo Teacher",
              role := "teacher", points := 0 }]
  profiles := []
  lessons := []
  quizzes := [{ id := 3, lesson_id := 9 }]
  questions := []
  quizSubs := [{ id := 7, quiz_id := 3, user_id := 1, score := none, is_graded := false }]
  answers := []
  tasks := [{ id := 4, title := "Tree planting", description := "plant a sapling",
              points := 60, deadline := 0 }]
  taskSubs := [{ id := 5, task_id := 4, user_id := 1, filename := [],
                 approved := false, points_awarded := 0 }]
  games := []
  gameScores := []
  notices := [{ message := "Welcome" }]

/-- C1: grading an ungraded submission (task or quiz) by a teacher succeeds in
one step, marks the submission graded with the awarded score (`approved=true`
and `points_awarded=p` for tasks, `is_graded=true` and `score=p` for quizzes)
and moves the owning student's points from `P` to `P + p`. -/
theorem C1_grading_sets_state_and_increments_points :
    (∀ (db : DB) (sid : Nat) (p : Int) (ts : TaskSubmission) (owner : User),
      db.taskSubs.find? (fun s => s.id == sid) = some ts →
      ts.approved = false →
      db.users.find? (fun u => u.id == ts.user_id) = some owner →
      owner.role = "student" →
      ∃ db2, grade_task_submission "teacher" sid p db = .ok db2 ∧
        db2.taskSubs.find? (fun s => s.id == sid) =
          some { ts with approved := true, points_awarded := p } ∧
        db2.users.find? (fun u => u.id == ts.user_id) =
          some { owner with points := owner.points + p }) ∧
    (∀ (db : DB) (sid : Nat) (p : Int) (qs : QuizSubmission) (owner : User),
      db.quizSubs.find? (fun s => s.id == sid) = some qs →
      qs.is_graded = false →
      db.users.find? (fun u => u.id == qs.user_id) = some owner →
      owner.role = "student" →
      ∃ db2, grade_quiz_submission "teacher" sid p db = .ok db2 ∧
        db2.quizSubs.find? (fun s => s.id == sid) =
          some { qs with is_graded := true, score := some p } ∧
        db2.users.find? (fun u => u.id == qs.user_id) =
          some { owner with points := owner.points + p }) := by
  constructor
  · intro db sid p ts owner h1 h2 h3 _
    exact ⟨_, gradeTask_run_ok db sid p ts h1 h2,
      gradeTaskUpdate_find?_taskSubs db sid p ts.user_id ts h1,
      usersAward_find? db.users ts.user_id p owner h3⟩
  · intro db sid p qs owner h1 h2 h3 _
    exact ⟨_, gradeQuiz_run_ok db sid p qs h1 h2,
      gradeQuizUpdate_find?_quizSubs db sid p qs.user_id qs h1,
      usersAward_find? db.users qs.user_id p owner h3⟩

/-- C1 witness: grading the sample student's task submission for 50 points
when they had 100 leaves them with 150 and the submission approved. -/
theorem C1_witness :
    ∃ db2, grade_task_submission "teacher" 5 50 dbSample = .ok db2 ∧
      db2.taskSubs.find? (fun s => s.id == 5) =
        some { id := 5, task_id := 4, user_id := 1, filename := [],
               approved := true, points_awarded := 50 } ∧
      db2.users.find? (fun u => u.id == 1) =
        some { id := 1, email := "demo@student.local", name := "Demo Student",
               role := "student", points := 150 } := by
  have h := C1_grading_sets_state_and_increments_points.1 dbSample 5 50
    { id := 5, task_id := 4, user_id := 1, filename := [], approved := false,
      points_awarded := 0 }
    { id := 1, email := "demo@student.local", name := "Demo Student",
      role := "student", points := 100 }
    rfl rfl rfl rfl
  obtain ⟨db2, hrun, hsub, husr⟩ := h
  exact ⟨db2, hrun, hsub, by simpa using husr⟩

/-- C2: once a submission is graded, every further grade call on it fails with
the 404 already-graded error and changes nothing; hence grade(s,p) followed by
grade(s,p2) fails the second call and the student's points show exactly one
increment, of size p. -/
theorem C2_grading_is_one_way :
    (∀ (db : DB) (sid : Nat) (p : Int) (ts : TaskSubmission),
      db.taskSubs.find? (fun s => s.id == sid) = some ts → ts.approved = true →
      grade_task_submission "teacher" sid p db = .error .notFoundOrAlreadyGraded ∧
      post (.gradeTask "teacher" sid p) db = db) ∧
    (∀ (db : DB) (sid : Nat) (p : Int) (qs : QuizSubmission),
      db.quizSubs.find? (fun s => s.id == sid) = some qs → qs.is_graded = true →
      grade_quiz_submission "teacher" sid p db = .error .notFoundOrAlreadyGraded ∧
      post (.gradeQuiz "teacher" sid p) db = db) ∧
    (∀ (db : DB) (sid : Nat) (p p2 : Int) (ts : TaskSubmission) (owner : User),
      db.taskSubs.find? (fun s => s.id == sid) = some ts → ts.approved = false →
      db.users.find? (fun u => u.id == ts.user_id) = some owner →
      Op.run (.gradeTask "teacher" sid p2) (post (.gradeTask "teacher" sid p) db) =
        .error .notFoundOrAlreadyGraded ∧
      postAll [.gradeTask "teacher" sid p, .gradeTask "teacher" sid p2] db =
        post (.gradeTask "teacher" sid p) db ∧
      pointsOf (postAll [.gradeTask "teacher" sid p, .gradeTask "teacher" sid p2] db)
        ts.user_id = owner.points + p) ∧
    (∀ (db : DB) (sid : Nat) (p p2 : Int) (qs : QuizSubmission) (owner : User),
      db.quizSubs.find? (fun s => s.id == sid) = some qs → qs.is_graded = false →
      db.users.find? (fun u => u.id == qs.user_id) = some owner →
      Op.run (.gradeQuiz "teacher" sid p2) (post (.gradeQuiz "teacher" sid p) db) =
        .error .notFoundOrAlreadyGraded ∧
      postAll [.gradeQuiz "teacher" sid p, .gradeQuiz "teacher" sid p2] db =
        post (.gradeQuiz "teacher" sid p) db ∧
      pointsOf (postAll [.gradeQuiz "teacher" sid p, .gradeQuiz "teacher" sid p2] db)
        qs.user_id = owner.points + p) := by
  refine ⟨?_, ?_, ?_, ?_⟩
  · intro db sid p ts h1 h2
    have herr : grade_task_submission "teacher" sid p db = .error .notFoundOrAlreadyGraded := by
      unfold grade_task_submission
      rw [if_neg (by simp), h1]
      simp [h2]
    exact ⟨herr, by simp [post, Op.run, herr]⟩
  · intro db sid p qs h1 h2
    have herr : grade_quiz_submission "teacher" sid p db = .error .notFoundOrAlreadyGraded := by
      unfold grade_quiz_submission
      rw [if_neg (by simp), h1]
      simp [h2]
    exact ⟨herr, by simp [post, Op.run, herr]⟩
  · intro db sid p p2 ts owner h1 h2 h3
    have hrun := gradeTask_run_ok db sid p ts h1 h2
    have hpost1 : post (.gradeTask "teacher" sid p) db = gradeTaskUpdate sid p ts.user_id db := by
      simp [post, Op.run, hrun]
    have hfind2 := gradeTaskUpdate_find?_taskSubs db sid p ts.user_id ts h1
    have herr2 : grade_task_submission "teacher" sid p2 (gradeTaskUpdate sid p ts.user_id db) =
        .error .notFoundOrAlreadyGraded := by
      unfold grade_task_submission
      rw [if_neg (by simp), hfind2]
      simp
    have hall : postAll [.gradeTask "teacher" sid p, .gradeTask "teacher" sid p2] db =
        gradeTaskUpdate sid p ts.user_id db := by
      simp only [postAll, List.foldl_cons, List.foldl_nil, hpost1]
      simp [post, Op.run, herr2]
    refine ⟨?_, ?_, ?_⟩
    · show grade_task_submission "teacher" sid p2 (post (.gradeTask "teacher" sid p) db) = _
      rw [hpost1]
      exact herr2
    · rw [hall, hpost1]
    · rw [hall]
      exact pointsOf_gradeTaskUpdate db sid p ts.user_id owner h3
  · intro db sid p p2 qs owner h1 h2 h3
    have hrun := gradeQuiz_run_ok db sid p qs h1 h2
    have hpost1 : post (.gradeQuiz "teacher" sid p) db = gradeQuizUpdate sid p qs.user_id db := by
      simp [post, Op.run, hrun]
    have hfind2 := gradeQuizUpdate_find?_quizSubs db sid p qs.user_id qs h1
    have herr2 : grade_quiz_submission "teacher" sid p2 (gradeQuizUpdate sid p qs.user_id db) =
        .error .notFoundOrAlreadyGraded := by
      unfold grade_quiz_submission
      rw [if_neg (by simp), hfind2]
      simp
    have hall : postAll [.gradeQuiz "teacher" sid p, .gradeQuiz "teacher" sid p2] db =
        gradeQuizUpdate sid p qs.user_id db := by
      simp only [postAll, List.foldl_cons, List.foldl_nil, hpost1]
      simp [post, Op.run, herr2]
    refine ⟨?_, ?_, ?_⟩
    · show grade_quiz_submission "teacher" sid p2 (post (.gradeQuiz "teacher" sid p) db) = _
      rw [hpost1]
      exact herr2
    · rw [hall, hpost1]
    · rw [hall]
      exact pointsOf_gradeQuizUpdate db sid p qs.user_id owner h3

/-- C2 witness: grading the sample task submission twice (50 then 70 points)
fails the second call and leaves the student with exactly 100 + 50 points. -/
theorem C2_witness :
    Op.run (.gradeTask "teacher" 5 70) (post (.gradeTask "teacher" 5 50) dbSample) =
      .error .notFoundOrAlreadyGraded ∧
    pointsOf (postAll [.gradeTask "teacher" 5 50, .gradeTask "teacher" 5 70] dbSample) 1 = 150 := by
  have h := C2_grading_is_one_way.2.2.1 dbSample 5 50 70
    { id := 5, task_id := 4, user_id := 1, filename := [], approved := false,
      points_awarded := 0 }
    { id := 1, email := "demo@student.local", name := "Demo Student",
      role := "student", points := 100 }
    rfl rfl rfl
  exact ⟨h.1, by simpa using h.2.2⟩

/-- The uniqueness invariant of the Submission Ledger: at most one quiz
submission per (user, quiz) and at most one task submission per (user, task). -/
def UniqueSubmissionPairs (db : DB) : Prop :=
  (∀ uid qid : Nat,
    db.quizSubs.countP (fun s => s.user_id == uid && s.quiz_id == qid) ≤ 1) ∧
  (∀ uid tid : Nat,
    db.taskSubs.countP (fun s => s.user_id == uid && s.task_id == tid) ≤ 1)

theorem post_eq_of_ok (o : Op) {db db2 : DB} (h : o.run db = .ok db2) :
    post o db = db2 := by
  simp [post, h]

theorem post_eq_of_error (o : Op) {db : DB} {e : ApiError} (h : o.run db = .error e) :
    post o db = db := by
  simp [post, h]

theorem countP_append_one {α : Type} (p : α → Bool) (l : List α) (a : α) :
    (l ++ [a]).countP p = l.countP p + if p a then 1 else 0 := by
  rw [List.countP_append, List.countP_cons, List.countP_nil, Nat.zero_add]

theorem countP_map_pres {α : Type} (f : α → α) (p : α → Bool) (l : List α)
    (h : ∀ a, p (f a) = p a) : (l.map f).countP p = l.countP p := by
  rw [List.countP_map]
  exact List.countP_congr (fun a _ => by rw [Function.comp_apply, h a])

theorem countP_singleton_le_one {α : Type} (p : α → Bool) (a : α) :
    List.countP p [a] ≤ 1 := by
  rw [List.countP_cons, List.countP_nil]
  split <;> simp

theorem unique_of_subs_eq {db db2 : DB} (h : UniqueSubmissionPairs db)
    (e1 : db2.quizSubs = db.quizSubs) (e2 : db2.taskSubs = db.taskSubs) :
    UniqueSubmissionPairs db2 :=
  ⟨fun uid qid => by rw [e1]; exact h.1 uid qid,
   fun uid tid => by rw [e2]; exact h.2 uid tid⟩

theorem post_subs_eq_of_runs (o : Op) (db : DB)
    (h : ∀ db2, o.run db = .ok db2 →
      db2.quizSubs = db.quizSubs ∧ db2.taskSubs = db.taskSubs) :
    (post o db).quizSubs = db.quizSubs ∧ (post o db).taskSubs = db.taskSubs := by
  cases hrun : o.run db with
  | error e => rw [post_eq_of_error _ hrun]; exact ⟨rfl, rfl⟩
  | ok db2 => rw [post_eq_of_ok _ hrun]; exact h db2 hrun

theorem uniquePairs_preserved (o : Op) (db : DB) (h : UniqueSubmissionPairs db) :
    UniqueSubmissionPairs (post o db) := by
  obtain ⟨hq, ht⟩ := h
  cases o with
  | updateProfile uid pname reg dob gen addr res fresh =>
    have hsubs := post_subs_eq_of_runs (.updateProfile uid pname reg dob gen addr res fresh) db (by
      intro db2 h2
      simp only [Op.run] at h2
      unfold update_profile at h2
      cases h2; exact ⟨rfl, rfl⟩)
    exact unique_of_subs_eq ⟨hq, ht⟩ hsubs.1 hsubs.2
  | addGame role gname gurl gskill fresh =>
    have hsubs := post_subs_eq_of_runs (.addGame role gname gurl gskill fresh) db (by
      intro db2 h2
      simp only [Op.run] at h2
      unfold add_game at h2
      split at h2
      · exact Except.noConfusion h2
      · cases h2; exact ⟨rfl, rfl⟩)
    exact unique_of_subs_eq ⟨hq, ht⟩ hsubs.1 hsubs.2
  | deleteGame role gid =>
    have hsubs := post_subs_eq_of_runs (.deleteGame role gid) db (by
      intro db2 h2
      simp only [Op.run] at h2
      unfold delete_game at h2
      split at h2
      · exact Except.noConfusion h2
      · split at h2
        · cases h2; exact ⟨rfl, rfl⟩
        · exact Except.noConfusion h2)
    exact unique_of_subs_eq ⟨hq, ht⟩ hsubs.1 hsubs.2
  | submitGameScore uid gid sc fresh =>
    have hsubs := post_subs_eq_of_runs (.submitGameScore uid gid sc fresh) db (by
      intro db2 h2
      simp only [Op.run] at h2
      unfold submit_game_score at h2
      cases h2; exact ⟨rfl, rfl⟩)
    exact unique_of_subs_eq ⟨hq, ht⟩ hsubs.1 hsubs.2
  | postNotice role msg =>
    have hsubs := post_subs_eq_of_runs (.postNotice role msg) db (by
      intro db2 h2
      simp only [Op.run] at h2
      unfold post_notice at h2
      split at h2
      · exact Except.noConfusion h2
      · cases h2; exact ⟨rfl, rfl⟩)
    exact unique_of_subs_eq ⟨hq, ht⟩ hsubs.1 hsubs.2
  | createLesson role t d v fresh =>
    have hsubs := post_subs_eq_of_runs (.createLesson role t d v fresh) db (by
      intro db2 h2
      simp only [Op.run] at h2
      unfold create_lesson at h2
      split at h2
      · exact Except.noConfusion h2
      · cases h2; exact ⟨rfl, rfl⟩)
    exact unique_of_subs_eq ⟨hq, ht⟩ hsubs.1 hsubs.2
  | saveQuiz role lid qtexts fq fqs =>
    have hsubs := post_subs_eq_of_runs (.saveQuiz role lid qtexts fq fqs) db (by
      intro db2 h2
      simp only [Op.run] at h2
      unfold create_or_update_quiz at h2
      split at h2
      · exact Except.noConfusion h2
      · split at h2
        · exact Except.noConfusion h2
        · split at h2
          · cases h2; exact ⟨rfl, rfl⟩
          · cases h2; exact ⟨rfl, rfl⟩)
    exact unique_of_subs_eq ⟨hq, ht⟩ hsubs.1 hsubs.2
  | assignTask role t d pts ok dl fresh =>
    have hsubs := post_subs_eq_of_runs (.assignTask role t d pts ok dl fresh) db (by
      intro db2 h2
      simp only [Op.run] at h2
      unfold assign_task at h2
      split at h2
      · exact Except.noConfusion h2
      · split at h2
        · exact Except.noConfusion h2
        · cases h2; exact ⟨rfl, rfl⟩)
    exact unique_of_subs_eq ⟨hq, ht⟩ hsubs.1 hsubs.2
  | submitQuiz uid qid ans fresh =>
    cases hrun : Op.run (.submitQuiz uid qid ans fresh) db with
    | error e => rw [post_eq_of_error _ hrun]; exact ⟨hq, ht⟩
    | ok db2 =>
      rw [post_eq_of_ok _ hrun]
      simp only [Op.run] at hrun
      unfold submit_quiz at hrun
      split at hrun
      · exact Except.noConfusion hrun
      · split at hrun
        · exact Except.noConfusion hrun
        · rename_i hdup
          cases hrun
          refine ⟨?_, ht⟩
          intro uid' qid'
          show List.countP (fun s => s.user_id == uid' && s.quiz_id == qid') (db.quizSubs ++ [{ id := fresh, quiz_id := qid, user_id := uid, score := none, is_graded := false }]) ≤ 1
          rw [countP_append_one]
          by_cases hc : uid = uid' ∧ qid = qid'
          · obtain ⟨rfl, rfl⟩ := hc
            have h0 : db.quizSubs.countP (fun s => s.user_id == uid && s.quiz_id == qid) = 0 := by
              rw [List.countP_eq_zero]
              intro a ha hpa
              exact hdup (List.find?_isSome.mpr ⟨a, ha, hpa⟩)
            simp [h0]
          · have hnew : ¬ ((({ id := fresh, quiz_id := qid, user_id := uid, score := none, is_graded := false } : QuizSubmission).user_id == uid' && ({ id := fresh, quiz_id := qid, user_id := uid, score := none, is_graded := false } : QuizSubmission).quiz_id == qid') = true) := by
              simpa using hc
            rw [if_neg hnew, Nat.add_zero]
            exact hq uid' qid'
  | submitTask uid tid orig fresh =>
    cases hrun : Op.run (.submitTask uid tid orig fresh) db with
    | error e => rw [post_eq_of_error _ hrun]; exact ⟨hq, ht⟩
    | ok db2 =>
      rw [post_eq_of_ok _ hrun]
      simp only [Op.run] at hrun
      unfold submit_task at hrun
      split at hrun
      · exact Except.noConfusion hrun
      · rename_i hdup
        cases hrun
        refine ⟨hq, ?_⟩
        intro uid' tid'
        show List.countP (fun s => s.user_id == uid' && s.task_id == tid') (db.taskSubs ++ [{ id := fresh, task_id := tid, user_id := uid, filename := storedFilename uid tid orig, approved := false, points_awarded := 0 }]) ≤ 1
        rw [countP_append_one]
        by_cases hc : uid = uid' ∧ tid = tid'
        · obtain ⟨rfl, rfl⟩ := hc
          have h0 : db.taskSubs.countP (fun s => s.user_id == uid && s.task_id == tid) = 0 := by
            rw [List.countP_eq_zero]
            intro a ha hpa
            exact hdup (List.find?_isSome.mpr ⟨a, ha, hpa⟩)
          simp [h0]
        · have hnew : ¬ ((({ id := fresh, task_id := tid, user_id := uid, filename := storedFilename uid tid orig, approved := false, points_awarded := 0 } : TaskSubmission).user_id == uid' && ({ id := fresh, task_id := tid, user_id := uid, filename := storedFilename uid tid orig, approved := false, points_awarded := 0 } : TaskSubmission).task_id == tid') = true) := by
            simpa using hc
          rw [if_neg hnew, Nat.add_zero]
          exact ht uid' tid'
  | gradeTask role sid pts =>
    cases hrun : Op.run (.gradeTask role sid pts) db with
    | error e => rw [post_eq_of_error _ hrun]; exact ⟨hq, ht⟩
    | ok db2 =>
      rw [post_eq_of_ok _ hrun]
      simp only [Op.run] at hrun
      unfold grade_task_submission at hrun
      split at hrun
      · exact Except.noConfusion hrun
      · split at hrun
        · exact Except.noConfusion hrun
        · split at hrun
          · exact Except.noConfusion hrun
          · cases hrun
            refine ⟨hq, ?_⟩
            intro uid' tid'
            show List.countP (fun s => s.user_id == uid' && s.task_id == tid') (db.taskSubs.map (fun s => if s.id == sid then { s with approved := true, points_awarded := pts } else s)) ≤ 1
            rw [countP_map_pres _ _ _ (by intro a; cases ha : a.id == sid <;> simp [ha])]
            exact ht uid' tid'
  | gradeQuiz role sid sc =>
    cases hrun : Op.run (.gradeQuiz role sid sc) db with
    | error e => rw [post_eq_of_error _ hrun]; exact ⟨hq, ht⟩
    | ok db2 =>
      rw [post_eq_of_ok _ hrun]
      simp only [Op.run] at hrun
      unfold grade_quiz_submission at hrun
      split at hrun
      · exact Except.noConfusion hrun
      · split at hrun
        · exact Except.noConfusion hrun
        · split at hrun
          · exact Except.noConfusion hrun
          · cases hrun
            refine ⟨?_, ht⟩
            intro uid' qid'
            show List.countP (fun s => s.user_id == uid' && s.quiz_id == qid') (db.quizSubs.map (fun s => if s.id == sid then { s with is_graded := true, score := some sc } else s)) ≤ 1
            rw [countP_map_pres _ _ _ (by intro a; cases ha : a.id == sid <;> simp [ha])]
            exact hq uid' qid'

/-- C3: a submit call for a (user, item) pair that already has a submission
fails with the duplicate-submission 400 and creates no row, and every API
operation preserves the at-most-one-submission-per-pair invariant. -/
theorem C3_at_most_one_submission_per_pair :
    (∀ (db : DB) (uid qid : Nat) (ans : List (Nat × String)) (fresh : Nat)
      (s : QuizSubmission), s ∈ db.quizSubs → s.user_id = uid → s.quiz_id = qid →
      (db.quizzes.find? (fun q => q.id == qid)).isSome →
      submit_quiz uid qid ans fresh db = .error .alreadySubmittedQuiz ∧
      post (.submitQuiz uid qid ans fresh) db = db) ∧
    (∀ (db : DB) (uid tid : Nat) (orig : List Char) (fresh : Nat)
      (s : TaskSubmission), s ∈ db.taskSubs → s.user_id = uid → s.task_id = tid →
      submit_task uid tid orig fresh db = .error .alreadySubmittedTask ∧
      post (.submitTask uid tid orig fresh) db = db) ∧
    (∀ (o : Op) (db : DB), UniqueSubmissionPairs db →
      UniqueSubmissionPairs (post o db)) := by
  refine ⟨?_, ?_, uniquePairs_preserved⟩
  · intro db uid qid ans fresh s hs hu hqd hquiz
    obtain ⟨q, hfq⟩ := Option.isSome_iff_exists.mp hquiz
    have hdup : (db.quizSubs.find? (fun s => s.user_id == uid && s.quiz_id == qid)).isSome = true :=
      List.find?_isSome.mpr ⟨s, hs, by simp [hu, hqd]⟩
    have herr : submit_quiz uid qid ans fresh db = .error .alreadySubmittedQuiz := by
      unfold submit_quiz
      rw [hfq]
      simp [hdup]
    exact ⟨herr, post_eq_of_error (.submitQuiz uid qid ans fresh) herr⟩
  · intro db uid tid orig fresh s hs hu htd
    have hdup : (db.taskSubs.find? (fun s => s.user_id == uid && s.task_id == tid)).isSome = true :=
      List.find?_isSome.mpr ⟨s, hs, by simp [hu, htd]⟩
    have herr : submit_task uid tid orig fresh db = .error .alreadySubmittedTask := by
      unfold submit_task
      simp [hdup]
    exact ⟨herr, post_eq_of_error (.submitTask uid tid orig fresh) herr⟩

/-- C3 witness: in the sample store, re-submitting quiz 3 and task 4 for
student 1 both fail and leave it unchanged, and the store keeps the
uniqueness invariant. -/
theorem C3_witness :
    submit_quiz 1 3 [] 9 dbSample = .error .alreadySubmittedQuiz ∧
    submit_task 1 4 ['a'] 9 dbSample = .error .alreadySubmittedTask ∧
    UniqueSubmissionPairs (post (.submitQuiz 1 3 [] 9) dbSample) := by
  have h1 := C3_at_most_one_submission_per_pair.1 dbSample 1 3 [] 9
    { id := 7, quiz_id := 3, user_id := 1, score := none, is_graded := false }
    (List.mem_singleton.mpr rfl) rfl rfl rfl
  have h2 := C3_at_most_one_submission_per_pair.2.1 dbSample 1 4 ['a'] 9
    { id := 5, task_id := 4, user_id := 1, filename := [], approved := false,
      points_awarded := 0 }
    (List.mem_singleton.mpr rfl) rfl rfl
  have h3 := C3_at_most_one_submission_per_pair.2.2 (.submitQuiz 1 3 [] 9) dbSample
    ⟨fun uid qid => countP_singleton_le_one _ _, fun uid tid => countP_singleton_le_one _ _⟩
  exact ⟨h1.1, h2.1, h3⟩

/-- C4 counterexample: no task with id 99 exists in the sample store, yet
`submit_task` does not fail with a not-found error — it succeeds and inserts
a submission row for the nonexistent task. -/
theorem C4_counterexample :
    dbSample.tasks.find? (fun t => t.id == 99) = none ∧
    submit_task 2 99 ['f'] 6 dbSample =
      .ok { dbSample with taskSubs := dbSample.taskSubs ++
        [{ id := 6, task_id := 99, user_id := 2,
           filename := storedFilename 2 99 ['f'], approved := false,
           points_awarded := 0 }] } := by
  constructor <;> rfl

/-- C4 amended: only quiz submission checks item existence — it fails with
the 404 quiz-not-found error and changes nothing when the quiz is absent;
task submission performs no existence check and, absent a prior submission
by the same user, succeeds and inserts a row whether or not the task exists
(awarding no points either way: the new row has `points_awarded = 0`). -/
theorem C4_notfound_check_only_for_quizzes :
    (∀ (db : DB) (uid qid : Nat) (ans : List (Nat × String)) (fresh : Nat),
      db.quizzes.find? (fun q => q.id == qid) = none →
      submit_quiz uid qid ans fresh db = .error .quizNotFound ∧
      post (.submitQuiz uid qid ans fresh) db = db) ∧
    (∀ (db : DB) (uid tid : Nat) (orig : List Char) (fresh : Nat),
      db.taskSubs.find? (fun s => s.user_id == uid && s.task_id == tid) = none →
      submit_task uid tid orig fresh db =
        .ok { db with taskSubs := db.taskSubs ++
          [{ id := fresh, task_id := tid, user_id := uid,
             filename := storedFilename uid tid orig, approved := false,
             points_awarded := 0 }] }) := by
  constructor
  · intro db uid qid ans fresh h
    have herr : submit_quiz uid qid ans fresh db = .error .quizNotFound := by
      unfold submit_quiz
      rw [h]
    exact ⟨herr, post_eq_of_error (.submitQuiz uid qid ans fresh) herr⟩
  · intro db uid tid orig fresh h
    unfold submit_task
    rw [h]
    rfl

/-- C4 witness: submitting nonexistent quiz 99 fails with the 404 and leaves
the sample store unchanged. -/
theorem C4_witness :
    submit_quiz 1 99 [] 8 dbSample = .error .quizNotFound ∧
    post (.submitQuiz 1 99 [] 8) dbSample = dbSample :=
  C4_notfound_check_only_for_quizzes.1 dbSample 1 99 [] 8 rfl

/-- C10: a successful notice post by a teacher first deletes every existing
notice, so afterwards the store holds exactly the one new notice, whatever
was on the board before. -/
theorem C10_notice_board_is_singleton :
    ∀ (db : DB) (msg : String),
      post_notice "teacher" msg db = .ok { db with notices := [{ message := msg }] } ∧
      ∀ db2, post_notice "teacher" msg db = .ok db2 →
        db2.notices = [{ message := msg }] := by
  intro db msg
  have hrun : post_notice "teacher" msg db = .ok { db with notices := [{ message := msg }] } := by
    unfold post_notice
    rw [if_neg (by simp)]
  refine ⟨hrun, ?_⟩
  intro db2 h
  rw [hrun] at h
  cases h
  rfl

/-- C10 witness: posting on the sample store (which already holds a notice)
leaves exactly the new notice. -/
theorem C10_witness :
    ∃ db2, post_notice "teacher" "Exam tomorrow" dbSample = .ok db2 ∧
      db2.notices = [{ message := "Exam tomorrow" }] := by
  refine ⟨_, (C10_notice_board_is_singleton dbSample "Exam tomorrow").1, ?_⟩
  exact (C10_notice_board_is_singleton dbSample "Exam tomorrow").2 _
    (C10_notice_board_is_singleton dbSample "Exam tomorrow").1

theorem pointsOf_congr_users {db db2 : DB} (h : db2.users = db.users) (uid : Nat) :
    pointsOf db2 uid = pointsOf db uid := by
  unfold pointsOf
  rw [h]

theorem post_users_eq_of_runs (o : Op) (db : DB)
    (h : ∀ db2, o.run db = .ok db2 → db2.users = db.users) :
    (post o db).users = db.users := by
  cases hrun : o.run db with
  | error e => rw [post_eq_of_error _ hrun]
  | ok db2 => rw [post_eq_of_ok _ hrun]; exact h db2 hrun

theorem points_map_name (users : List User) (uid target : Nat) (pname : String) :
    ((users.map (fun u => if u.id == target then { u with name := pname } else u)).find?
      (fun u => u.id == uid)).map (fun u => u.points) =
    (users.find? (fun u => u.id == uid)).map (fun u => u.points) := by
  rw [find?_map_pres _ _ _ (by intro a; cases ha : a.id == target <;> simp [ha])]
  cases h : users.find? (fun u => u.id == uid)
  · rfl
  · simp only [Option.map_some']
    congr 1
    split <;> rfl

theorem points_map_award_ge (users : List User) (uid target : Nat) (p : Int)
    (hp : 0 ≤ p) :
    ((users.find? (fun u => u.id == uid)).map (fun u => u.points)).getD 0 ≤
    (((users.map (fun u => if u.id == target then { u with points := u.points + p } else u)).find?
      (fun u => u.id == uid)).map (fun u => u.points)).getD 0 := by
  rw [find?_map_pres _ _ _ (by intro a; cases ha : a.id == target <;> simp [ha])]
  cases h : users.find? (fun u => u.id == uid)
  · exact le_refl _
  · simp only [Option.map_some', Option.getD_some]
    split
    · exact le_add_of_nonneg_right hp
    · exact le_refl _

theorem pointsOf_post_nonGrade (o : Op) (db : DB) (uid : Nat) (hng : ¬ o.isGrade) :
    pointsOf (post o db) uid = pointsOf db uid := by
  cases o with
  | gradeTask role sid pts => exact absurd True.intro hng
  | gradeQuiz role sid sc => exact absurd True.intro hng
  | updateProfile uid2 pname reg dob gen addr res fresh =>
    cases hrun : Op.run (.updateProfile uid2 pname reg dob gen addr res fresh) db with
    | error e => rw [post_eq_of_error _ hrun]
    | ok db2 =>
      rw [post_eq_of_ok _ hrun]
      simp only [Op.run] at hrun
      unfold update_profile at hrun
      cases hrun
      show (((db.users.map (fun u => if u.id == uid2 then { u with name := pname } else u)).find? (fun u => u.id == uid)).map (fun u => u.points)).getD 0 = pointsOf db uid
      rw [points_map_name]
      rfl
  | addGame role gname gurl gskill fresh =>
    refine pointsOf_congr_users (post_users_eq_of_runs _ db ?_) uid
    intro db2 h2
    simp only [Op.run] at h2
    unfold add_game at h2
    split at h2
    · exact Except.noConfusion h2
    · cases h2; rfl
  | deleteGame role gid =>
    refine pointsOf_congr_users (post_users_eq_of_runs _ db ?_) uid
    intro db2 h2
    simp only [Op.run] at h2
    unfold delete_game at h2
    split at h2
    · exact Except.noConfusion h2
    · split at h2
      · cases h2; rfl
      · exact Except.noConfusion h2
  | submitGameScore uid2 gid sc fresh =>
    refine pointsOf_congr_users (post_users_eq_of_runs _ db ?_) uid
    intro db2 h2
    simp only [Op.run] at h2
    unfold submit_game_score at h2
    cases h2; rfl
  | postNotice role msg =>
    refine pointsOf_congr_users (post_users_eq_of_runs _ db ?_) uid
    intro db2 h2
    simp only [Op.run] at h2
    unfold post_notice at h2
    split at h2
    · exact Except.noConfusion h2
    · cases h2; rfl
  | createLesson role t d v fresh =>
    refine pointsOf_congr_users (post_users_eq_of_runs _ db ?_) uid
    intro db2 h2
    simp only [Op.run] at h2
    unfold create_lesson at h2
    split at h2
    · exact Except.noConfusion h2
    · cases h2; rfl
  | saveQuiz role lid qtexts fq fqs =>
    refine pointsOf_congr_users (post_users_eq_of_runs _ db ?_) uid
    intro db2 h2
    simp only [Op.run] at h2
    unfold create_or_update_quiz at h2
    split at h2
    · exact Except.noConfusion h2
    · split at h2
      · exact Except.noConfusion h2
      · split at h2
        · cases h2; rfl
        · cases h2; rfl
  | assignTask role t d pts ok dl fresh =>
    refine pointsOf_congr_users (post_users_eq_of_runs _ db ?_) uid
    intro db2 h2
    simp only [Op.run] at h2
    unfold assign_task at h2
    split at h2
    · exact Except.noConfusion h2
    · split at h2
      · exact Except.noConfusion h2
      · cases h2; rfl
  | submitQuiz uid2 qid ans fresh =>
    refine pointsOf_congr_users (post_users_eq_of_runs _ db ?_) uid
    intro db2 h2
    simp only [Op.run] at h2
    unfold submit_quiz at h2
    split at h2
    · exact Except.noConfusion h2
    · split at h2
      · exact Except.noConfusion h2
      · cases h2; rfl
  | submitTask uid2 tid orig fresh =>
    refine pointsOf_congr_users (post_users_eq_of_runs _ db ?_) uid
    intro db2 h2
    simp only [Op.run] at h2
    unfold submit_task at h2
    split at h2
    · exact Except.noConfusion h2
    · cases h2; rfl

theorem pointsOf_post_mono (o : Op) (db : DB) (uid : Nat) (ha : o.awardNonneg) :
    pointsOf db uid ≤ pointsOf (post o db) uid := by
  cases o with
  | gradeTask role sid pts =>
    cases hrun : Op.run (.gradeTask role sid pts) db with
    | error e => rw [post_eq_of_error _ hrun]
    | ok db2 =>
      rw [post_eq_of_ok _ hrun]
      simp only [Op.run] at hrun
      unfold grade_task_submission at hrun
      split at hrun
      · exact Except.noConfusion hrun
      · split at hrun
        · exact Except.noConfusion hrun
        · rename_i sub hfind
          split at hrun
          · exact Except.noConfusion hrun
          · cases hrun
            exact points_map_award_ge db.users uid sub.user_id pts ha
  | gradeQuiz role sid sc =>
    cases hrun : Op.run (.gradeQuiz role sid sc) db with
    | error e => rw [post_eq_of_error _ hrun]
    | ok db2 =>
      rw [post_eq_of_ok _ hrun]
      simp only [Op.run] at hrun
      unfold grade_quiz_submission at hrun
      split at hrun
      · exact Except.noConfusion hrun
      · split at hrun
        · exact Except.noConfusion hrun
        · rename_i sub hfind
          split at hrun
          · exact Except.noConfusion hrun
          · cases hrun
            exact points_map_award_ge db.users uid sub.user_id sc ha
  | updateProfile uid2 pname reg dob gen addr res fresh =>
    exact le_of_eq (pointsOf_post_nonGrade (.updateProfile uid2 pname reg dob gen addr res fresh) db uid not_false).symm
  | addGame role gname gurl gskill fresh =>
    exact le_of_eq (pointsOf_post_nonGrade (.addGame role gname gurl gskill fresh) db uid not_false).symm
  | deleteGame role gid =>
    exact le_of_eq (pointsOf_post_nonGrade (.deleteGame role gid) db uid not_false).symm
  | submitGameScore uid2 gid sc fresh =>
    exact le_of_eq (pointsOf_post_nonGrade (.submitGameScore uid2 gid sc fresh) db uid not_false).symm
  | postNotice role msg =>
    exact le_of_eq (pointsOf_post_nonGrade (.postNotice role msg) db uid not_false).symm
  | createLesson role t d v fresh =>
    exact le_of_eq (pointsOf_post_nonGrade (.createLesson role t d v fresh) db uid not_false).symm
  | saveQuiz role lid qtexts fq fqs =>
    exact le_of_eq (pointsOf_post_nonGrade (.saveQuiz role lid qtexts fq fqs) db uid not_false).symm
  | assignTask role t d pts ok dl fresh =>
    exact le_of_eq (pointsOf_post_nonGrade (.assignTask role t d pts ok dl fresh) db uid not_false).symm
  | submitQuiz uid2 qid ans fresh =>
    exact le_of_eq (pointsOf_post_nonGrade (.submitQuiz uid2 qid ans fresh) db uid not_false).symm
  | submitTask uid2 tid orig fresh =>
    exact le_of_eq (pointsOf_post_nonGrade (.submitTask uid2 tid orig fresh) db uid not_false).symm

theorem pointsOf_postAll_mono (ops : List Op) (db : DB) (uid : Nat)
    (h : ∀ o ∈ ops, o.awardNonneg) :
    pointsOf db uid ≤ pointsOf (postAll ops db) uid := by
  induction ops generalizing db with
  | nil => exact le_refl _
  | cons o rest ih =>
    calc pointsOf db uid ≤ pointsOf (post o db) uid :=
          pointsOf_post_mono o db uid (h o (.head _))
      _ ≤ pointsOf (postAll rest (post o db)) uid :=
          ih (post o db) (fun o2 ho2 => h o2 (.tail _ ho2))

/-- C6 counterexample: the API accepts a negative awarded-points value, and
grading the sample task submission with -5 points drops the student's points
from 100 to 95 — so points are not monotonically non-decreasing as claimed. -/
theorem C6_counterexample :
    pointsOf dbSample 1 = 100 ∧
    pointsOf (post (.gradeTask "teacher" 5 (-5)) dbSample) 1 = 95 := by
  constructor <;> rfl

/-- C6 amended: only the two grading operations ever change any user's
points — every other operation leaves every user's points exactly as they
were — and points never decrease under any operation, or any sequence of
operations, whose awarded points are non-negative (the API does not enforce
that bound: a negative grade decreases them). -/
theorem C6_points_mutated_only_by_grading :
    (∀ (o : Op) (db : DB) (uid : Nat), ¬ o.isGrade →
      pointsOf (post o db) uid = pointsOf db uid) ∧
    (∀ (o : Op) (db : DB) (uid : Nat), o.awardNonneg →
      pointsOf db uid ≤ pointsOf (post o db) uid) ∧
    (∀ (ops : List Op) (db : DB) (uid : Nat), (∀ o ∈ ops, o.awardNonneg) →
      pointsOf db uid ≤ pointsOf (postAll ops db) uid) :=
  ⟨pointsOf_post_nonGrade, pointsOf_post_mono, pointsOf_postAll_mono⟩

/-- C6 witness: a non-grading operation (posting a notice) leaves the sample
student's points at 100, and a sequence of two non-negative grades only
increases them. -/
theorem C6_witness :
    pointsOf (post (.postNotice "teacher" "hi") dbSample) 1 = pointsOf dbSample 1 ∧
    pointsOf dbSample 1 ≤
      pointsOf (postAll [.gradeTask "teacher" 5 50, .gradeQuiz "teacher" 7 20] dbSample) 1 := by
  constructor
  · exact C6_points_mutated_only_by_grading.1 (.postNotice "teacher" "hi") dbSample 1 not_false
  · exact C6_points_mutated_only_by_grading.2.2
      [.gradeTask "teacher" 5 50, .gradeQuiz "teacher" 7 20] dbSample 1
      (by
        intro o ho
        simp only [List.mem_cons, List.not_mem_nil, or_false] at ho
        rcases ho with rfl | rfl
        · show (0 : Int) ≤ 50
          norm_num
        · show (0 : Int) ≤ 20
          norm_num)

theorem leaderboard_eq (db : DB) :
    leaderboard db = ((db.users.filter (fun u => u.role == "student")).mergeSort
      (fun a b => decide (b.points ≤ a.points))).take 10 := rfl

/-- C8: the leaderboard lists only users whose role is student, in
non-increasing points order, and at most 10 of them — exactly
min(10, number of students), so 11 students yield exactly 10 rows — and the
students left off the board (the permutation complement `rest`) all have
points no greater than any listed entry: the board is the top 10 by points. -/
theorem C8_leaderboard_top10_students (db : DB) :
    (∀ u ∈ leaderboard db, u.role = "student") ∧
    (leaderboard db).Pairwise (fun a b => b.points ≤ a.points) ∧
    (leaderboard db).length =
      min 10 (db.users.filter (fun u => u.role == "student")).length ∧
    ∃ rest : List User,
      (leaderboard db ++ rest).Perm (db.users.filter (fun u => u.role == "student")) ∧
      ∀ x ∈ leaderboard db, ∀ y ∈ rest, y.points ≤ x.points := by
  have htrans : ∀ a b c : User, decide (b.points ≤ a.points) = true →
      decide (c.points ≤ b.points) = true → decide (c.points ≤ a.points) = true := by
    intro a b c h1 h2
    rw [decide_eq_true_eq] at h1 h2 ⊢
    exact le_trans h2 h1
  have htotal : ∀ a b : User,
      (decide (b.points ≤ a.points) || decide (a.points ≤ b.points)) = true := by
    intro a b
    simpa using le_total b.points a.points
  have hsorted := List.sorted_mergeSort htrans htotal
    (db.users.filter (fun u => u.role == "student"))
  have hperm := List.mergeSort_perm (db.users.filter (fun u => u.role == "student"))
    (fun a b => decide (b.points ≤ a.points))
  refine ⟨?_, ?_, ?_,
    List.drop 10 ((db.users.filter (fun u => u.role == "student")).mergeSort
      (fun a b => decide (b.points ≤ a.points))), ?_, ?_⟩
  · intro u hu
    rw [leaderboard_eq] at hu
    have h1 := List.mem_mergeSort.mp (List.mem_of_mem_take hu)
    rw [List.mem_filter] at h1
    simpa using h1.2
  · rw [leaderboard_eq]
    exact (List.Pairwise.sublist (List.take_sublist 10 _) hsorted).imp
      (fun h => of_decide_eq_true h)
  · rw [leaderboard_eq, List.length_take, List.length_mergeSort]
  · rw [leaderboard_eq, List.take_append_drop]
    exact hperm
  · intro x hx y hy
    have h2 : List.Pairwise (fun a b : User => decide (b.points ≤ a.points) = true)
        (List.take 10 ((db.users.filter (fun u => u.role == "student")).mergeSort
          (fun a b => decide (b.points ≤ a.points))) ++
         List.drop 10 ((db.users.filter (fun u => u.role == "student")).mergeSort
          (fun a b => decide (b.points ≤ a.points)))) := by
      rw [List.take_append_drop]
      exact hsorted
    rw [leaderboard_eq] at hx
    exact of_decide_eq_true ((List.pairwise_append.mp h2).2.2 x hx y hy)

/-- A store with eleven students (and one teacher) for the leaderboard
scenario. -/
def db11 : DB where
  users := [{ id := 1, email := "a1", name := "s1", role := "student", points := 110 },
            { id := 2, email := "a2", name := "s2", role := "student", points := 100 },
            { id := 3, email := "a3", name := "s3", role := "student", points := 90 },
            { id := 4, email := "a4", name := "s4", role := "student", points := 80 },
            { id := 5, email := "a5", name := "s5", role := "student", points := 70 },
            { id := 6, email := "a6", name := "s6", role := "student", points := 60 },
            { id := 7, email := "a7", name := "s7", role := "student", points := 50 },
            { id := 8, email := "a8", name := "s8", role := "student", points := 40 },
            { id := 9, email := "a9", name := "s9", role := "student", points := 30 },
            { id := 10, email := "a10", name := "s10", role := "student", points := 20 },
            { id := 11, email := "a11", name := "s11", role := "student", points := 10 },
            { id := 12, email := "t", name := "t", role := "teacher", points := 0 }]
  profiles := []
  lessons := []
  quizzes := []
  questions := []
  quizSubs := []
  answers := []
  tasks := []
  taskSubs := []
  games := []
  gameScores := []
  notices := []

/-- C8 witness: with eleven students the leaderboard returns exactly 10 rows,
all students. -/
theorem C8_witness :
    (leaderboard db11).length = 10 ∧ ∀ u ∈ leaderboard db11, u.role = "student" := by
  refine ⟨?_, (C8_leaderboard_top10_students db11).1⟩
  have h := (C8_leaderboard_top10_students db11).2.2.1
  rw [h]
  rfl

/-- The academic score the specification describes: points over graded task
submissions plus scores over graded quiz submissions of the student. -/
def specAcademicScore (db : DB) (sid : Nat) : Int :=
  (((db.taskSubs.filter (fun s => s.user_id == sid && s.approved)).map
    (fun s => s.points_awarded)).sum : Int) +
  (((db.quizSubs.filter (fun s => s.user_id == sid && s.is_graded)).map
    (fun s => s.score.getD 0)).sum : Int)

theorem taskSum_graded_eq (l : List TaskSubmission) (sid : Nat)
    (h : ∀ t ∈ l, t.approved = false → t.points_awarded = 0) :
    ((l.filter (fun s => s.user_id == sid)).map (fun s => s.points_awarded)).sum =
    ((l.filter (fun s => s.user_id == sid && s.approved)).map
      (fun s => s.points_awarded)).sum := by
  induction l with
  | nil => rfl
  | cons a t ih =>
    have iht := ih (fun x hx => h x (.tail _ hx))
    rw [List.filter_cons, List.filter_cons]
    by_cases hu : a.user_id = sid
    · cases hap : a.approved
      · simp [hu, hap, h a (.head _) hap, iht]
      · simp [hu, hap, iht]
    · simp [hu, iht]

theorem quizSum_graded_eq (l : List QuizSubmission) (sid : Nat)
    (h : ∀ q ∈ l, q.is_graded = false → q.score = none) :
    ((l.filter (fun s => s.user_id == sid)).map (fun s => s.score.getD 0)).sum =
    ((l.filter (fun s => s.user_id == sid && s.is_graded)).map
      (fun s => s.score.getD 0)).sum := by
  induction l with
  | nil => rfl
  | cons a t ih =>
    have iht := ih (fun x hx => h x (.tail _ hx))
    rw [List.filter_cons, List.filter_cons]
    by_cases hu : a.user_id = sid
    · cases hap : a.is_graded
      · simp [hu, hap, h a (.head _) hap, iht]
      · simp [hu, hap, iht]
    · simp [hu, iht]

/-- C5: on any store where ungraded task submissions still carry their
default `points_awarded = 0` and ungraded quiz submissions their default
NULL score — which is how every submission is created and how grading leaves
them — the report's `academic_score` equals the sum of `points_awarded` over
the student's graded task submissions plus the sum of `score` over their
graded quiz submissions, ungraded submissions contributing exactly 0. -/
theorem C5_academic_score_sums_graded_submissions :
    ∀ (db : DB) (caller : User) (sid : Nat) (r : StudentReportOut),
      (∀ t ∈ db.taskSubs, t.approved = false → t.points_awarded = 0) →
      (∀ q ∈ db.quizSubs, q.is_graded = false → q.score = none) →
      get_student_report caller sid db = .ok r →
      r.academic_score = specAcademicScore db sid := by
  intro db caller sid r ht hq h
  unfold get_student_report at h
  split at h
  · exact Except.noConfusion h
  · split at h
    · exact Except.noConfusion h
    · split at h
      · exact Except.noConfusion h
      · cases h
        show (((db.taskSubs.filter (fun s => s.user_id == sid)).map
            (fun s => s.points_awarded)).sum : Int) +
          (((db.quizSubs.filter (fun s => s.user_id == sid)).map
            (fun s => s.score.getD 0)).sum : Int) = specAcademicScore db sid
        unfold specAcademicScore
        rw [taskSum_graded_eq db.taskSubs sid ht, quizSum_graded_eq db.quizSubs sid hq]

/-- The sample teacher and student rows, and the report the sample store
yields for student 1. -/
def teacherRow : User :=
  { id := 2, email := "teacher@school.local", name := "Demo Teacher", role := "teacher", points := 0 }

def studentRow : User :=
  { id := 1, email := "demo@student.local", name := "Demo Student", role := "student", points := 100 }

def sampleReport : StudentReportOut :=
  { user := studentRow, academic_score := 0, soft_skills := [] }

/-- C5 witness: in the sample store (one ungraded task submission, one
ungraded quiz submission) the report for student 1 carries academic score 0,
matching the graded-only sums. -/
theorem C5_witness :
    get_student_report teacherRow 1 dbSample = .ok sampleReport ∧
    sampleReport.academic_score = specAcademicScore dbSample 1 := by
  constructor
  · rfl
  · exact C5_academic_score_sums_graded_submissions dbSample teacherRow 1 sampleReport
      (by decide) (by decide) rfl

/-- The spec's surviving (skill, score) pairs of a student: scores of the
student whose game still exists, tagged with that game's skill. -/
def taggedScores (db : DB) (sid : Nat) : List (String × Int) :=
  (db.gameScores.filter (fun s => s.user_id == sid)).filterMap
    (fun s => (db.games.find? (fun g => g.id == s.game_id)).map
      (fun g => (g.skill, s.score)))

/-- The spec's list of a student's surviving scores tagged with one skill. -/
def skillValues (db : DB) (sid : Nat) (sk : String) : List Int :=
  ((taggedScores db sid).filter (fun p => p.1 == sk)).map (fun p => p.2)

theorem lookupSkill_nil {α : Type} (sk : String) :
    lookupSkill ([] : List (String × α)) sk = none := rfl

theorem lookupSkill_cons {α : Type} (p : String × α) (rest : List (String × α))
    (sk : String) :
    lookupSkill (p :: rest) sk = if p.1 == sk then some p.2 else lookupSkill rest sk := by
  obtain ⟨k, v⟩ := p
  rfl

theorem lookupSkill_addScore (m : List (String × List Int)) (k sk : String) (v : Int) :
    lookupSkill (addScore m k v) sk =
      if k = sk then some ((lookupSkill m sk).getD [] ++ [v])
      else lookupSkill m sk := by
  induction m with
  | nil =>
    by_cases h : k = sk <;> simp [addScore, lookupSkill_cons, lookupSkill_nil, h]
  | cons a rest ih =>
    obtain ⟨k2, vs⟩ := a
    show lookupSkill (if k2 == k then (k2, vs ++ [v]) :: rest
      else (k2, vs) :: addScore rest k v) sk = _
    by_cases h1 : k2 = k
    · rw [if_pos (by simpa using h1)]
      subst h1
      by_cases h2 : k2 = sk
      · rw [lookupSkill_cons, lookupSkill_cons]
        simp [h2]
      · rw [lookupSkill_cons, lookupSkill_cons]
        simp [h2]
    · rw [if_neg (by simpa using h1)]
      rw [lookupSkill_cons, ih, lookupSkill_cons]
      by_cases h2 : k2 = sk
      · have hks : ¬ k = sk := fun he => h1 (h2.trans he.symm)
        simp [h2, hks]
      · simp [h2]

theorem lookupSkill_map_avg (m : List (String × List Int)) (sk : String) :
    lookupSkill (m.map (fun p => (p.1, (p.2.sum : ℚ) / (p.2.length : ℚ)))) sk =
      (lookupSkill m sk).map (fun vs => (vs.sum : ℚ) / (vs.length : ℚ)) := by
  induction m with
  | nil => rfl
  | cons a rest ih =>
    rw [List.map_cons, lookupSkill_cons, lookupSkill_cons]
    by_cases h : a.1 = sk
    · rw [if_pos (by simpa using h), if_pos (by simpa using h)]
      rfl
    · rw [if_neg (by simpa using h), if_neg (by simpa using h)]
      exact ih

theorem lookupSkill_foldl (games : List Game) (scores : List GameScore)
    (m : List (String × List Int)) (sk : String) :
    lookupSkill (scores.foldl (fun m s =>
      match games.find? (fun g => g.id == s.game_id) with
      | none => m
      | some g => addScore m g.skill s.score) m) sk =
    match lookupSkill m sk with
    | none =>
        if ((scores.filterMap (fun s => (games.find? (fun g => g.id == s.game_id)).map
            (fun g => (g.skill, s.score)))).filter (fun p => p.1 == sk)).map
            (fun p => p.2) = [] then none
        else some (((scores.filterMap (fun s => (games.find? (fun g => g.id == s.game_id)).map
            (fun g => (g.skill, s.score)))).filter (fun p => p.1 == sk)).map
            (fun p => p.2))
    | some vs =>
        some (vs ++ ((scores.filterMap (fun s => (games.find? (fun g => g.id == s.game_id)).map
            (fun g => (g.skill, s.score)))).filter (fun p => p.1 == sk)).map
            (fun p => p.2)) := by
  induction scores generalizing m with
  | nil =>
    cases h : lookupSkill m sk <;> simp [h]
  | cons s rest ih =>
    simp only [List.foldl_cons, List.filterMap_cons]
    cases hg : games.find? (fun g => g.id == s.game_id) with
    | none =>
      simpa using ih m
    | some g =>
      simp only [Option.map_some']
      rw [ih (addScore m g.skill s.score), lookupSkill_addScore]
      by_cases hsk : g.skill = sk
      · rw [if_pos hsk]
        rw [List.filter_cons_of_pos (by simpa using hsk), List.map_cons]
        cases hm : lookupSkill m sk
        · simp
        · simp [List.append_assoc]
      · rw [if_neg hsk]
        rw [List.filter_cons_of_neg (by simpa using hsk)]

theorem lookupSkill_buildSkills (db : DB) (sid : Nat) (sk : String) :
    lookupSkill (buildSkills db.games (db.gameScores.filter (fun s => s.user_id == sid))) sk =
    if skillValues db sid sk = [] then none else some (skillValues db sid sk) := by
  unfold buildSkills
  rw [lookupSkill_foldl]
  rfl

/-- C7: the report's `soft_skills` maps exactly the skills that have at least
one surviving score of the student (a score whose parent game still exists)
to the arithmetic mean of those scores; skills with no surviving scores are
absent, a student with no game scores gets the empty map, and scores of
deleted games are silently skipped. -/
theorem C7_soft_skills_are_means_of_surviving_scores :
    ∀ (db : DB) (caller : User) (sid : Nat) (r : StudentReportOut),
      get_student_report caller sid db = .ok r →
      (∀ sk : String, lookupSkill r.soft_skills sk =
        if skillValues db sid sk = [] then none
        else some (((skillValues db sid sk).sum : ℚ) / ((skillValues db sid sk).length : ℚ))) ∧
      (db.gameScores.filter (fun s => s.user_id == sid) = [] → r.soft_skills = []) := by
  intro db caller sid r h
  unfold get_student_report at h
  split at h
  · exact Except.noConfusion h
  · split at h
    · exact Except.noConfusion h
    · split at h
      · exact Except.noConfusion h
      · cases h
        constructor
        · intro sk
          show lookupSkill ((buildSkills db.games (db.gameScores.filter
              (fun s => s.user_id == sid))).map
              (fun p => (p.1, (p.2.sum : ℚ) / (p.2.length : ℚ)))) sk = _
          rw [lookupSkill_map_avg, lookupSkill_buildSkills]
          by_cases hl : skillValues db sid sk = []
          · simp [hl]
          · simp [hl]
        · intro hempty
          show ((buildSkills db.games (db.gameScores.filter
              (fun s => s.user_id == sid))).map
              (fun p => (p.1, (p.2.sum : ℚ) / (p.2.length : ℚ)))) = []
          rw [hempty]
          rfl

/-- A store with two games, three surviving scores of student 1 and one score
whose game (id 99) was deleted. -/
def dbGames : DB where
  users := [studentRow, teacherRow]
  profiles := []
  lessons := []
  quizzes := []
  questions := []
  quizSubs := []
  answers := []
  tasks := []
  taskSubs := []
  games := [{ id := 1, name := "Typing", url := "u1", skill := "Typing Speed" },
            { id := 2, name := "Puzzles", url := "u2", skill := "Logical Skill" }]
  gameScores := [{ id := 1, user_id := 1, game_id := 1, score := 10 },
                 { id := 2, user_id := 1, game_id := 1, score := 20 },
                 { id := 3, user_id := 1, game_id := 2, score := 5 },
                 { id := 4, user_id := 1, game_id := 99, score := 7 }]
  notices := []

/-- The report the game store yields for student 1. -/
def gamesReport : StudentReportOut :=
  { user := studentRow, academic_score := 0,
    soft_skills := [("Typing Speed", ((30 : Int) : ℚ) / ((2 : Nat) : ℚ)),
                    ("Logical Skill", ((5 : Int) : ℚ) / ((1 : Nat) : ℚ))] }

/-- C7 witness: student 1's report averages the two surviving Typing Speed
scores to 15, skips the score of deleted game 99, and has no entry for a
skill with no scores. -/
theorem C7_witness :
    get_student_report teacherRow 1 dbGames = .ok gamesReport ∧
    lookupSkill gamesReport.soft_skills "Typing Speed" =
      some (((30 : Int) : ℚ) / ((2 : Nat) : ℚ)) ∧
    lookupSkill gamesReport.soft_skills "Gardening" = none := by
  refine ⟨rfl, ?_, ?_⟩
  · have h := (C7_soft_skills_are_means_of_surviving_scores dbGames teacherRow 1
      gamesReport rfl).1 "Typing Speed"
    rw [h]
    rfl
  · have h := (C7_soft_skills_are_means_of_surviving_scores dbGames teacherRow 1
      gamesReport rfl).1 "Gardening"
    rw [h]
    rfl

/-- Parse a decimal digit string back to a number (proof tool: left inverse
of `decRepr`). -/
def parseDec (cs : List Char) : Nat :=
  cs.foldl (fun a c => a * 10 + (c.toNat - 48)) 0

theorem parseDec_append_digit (xs : List Char) (c : Char) :
    parseDec (xs ++ [c]) = parseDec xs * 10 + (c.toNat - 48) := by
  unfold parseDec
  rw [List.foldl_append]
  rfl

theorem toNat_digitChar (d : Nat) (h : d < 10) :
    (Char.ofNat (48 + d)).toNat = 48 + d := by
  interval_cases d <;> decide

theorem parseDec_decReprAux (fuel n : Nat) (h : n ≤ fuel) :
    parseDec (decReprAux fuel n) = n := by
  induction fuel generalizing n with
  | zero =>
    have h0 : n = 0 := Nat.le_zero.mp h
    subst h0
    rfl
  | succ fuel ih =>
    cases n with
    | zero => rfl
    | succ n =>
      have hle : (n + 1) / 10 ≤ fuel := by omega
      rw [show decReprAux (fuel + 1) (n + 1) =
        decReprAux fuel ((n + 1) / 10) ++ [Char.ofNat (48 + (n + 1) % 10)] from rfl]
      rw [parseDec_append_digit, ih ((n + 1) / 10) hle,
        toNat_digitChar _ (Nat.mod_lt _ (by norm_num))]
      omega

theorem parseDec_decRepr (n : Nat) : parseDec (decRepr n) = n := by
  unfold decRepr
  split
  · rename_i h
    subst h
    rfl
  · exact parseDec_decReprAux n n (le_refl n)

theorem decRepr_inj {m n : Nat} (h : decRepr m = decRepr n) : m = n := by
  have h2 := congrArg parseDec h
  rwa [parseDec_decRepr, parseDec_decRepr] at h2

theorem decReprAux_digits (fuel n : Nat) :
    ∀ c ∈ decReprAux fuel n, 48 ≤ c.toNat ∧ c.toNat ≤ 57 := by
  induction fuel generalizing n with
  | zero =>
    intro c hc
    exact absurd hc (by simp [decReprAux])
  | succ fuel ih =>
    cases n with
    | zero =>
      intro c hc
      exact absurd hc (by simp [decReprAux])
    | succ n =>
      intro c hc
      rw [show decReprAux (fuel + 1) (n + 1) =
        decReprAux fuel ((n + 1) / 10) ++ [Char.ofNat (48 + (n + 1) % 10)] from rfl] at hc
      rcases List.mem_append.mp hc with h1 | h1
      · exact ih _ c h1
      · rw [List.mem_singleton] at h1
        subst h1
        rw [toNat_digitChar _ (Nat.mod_lt _ (by norm_num))]
        omega

theorem underscore_not_mem_decRepr (n : Nat) : '_' ∉ decRepr n := by
  intro hmem
  unfold decRepr at hmem
  split at hmem
  · rw [List.mem_singleton] at hmem
    exact absurd (congrArg Char.toNat hmem) (by decide)
  · have hd := decReprAux_digits n n '_' hmem
    have h95 : ('_' : Char).toNat = 95 := by decide
    omega

theorem append_underscore_inj {xs xs2 ys ys2 : List Char}
    (hx : '_' ∉ xs) (hx2 : '_' ∉ xs2)
    (h : xs ++ '_' :: ys = xs2 ++ '_' :: ys2) : xs = xs2 ∧ ys = ys2 := by
  induction xs generalizing xs2 with
  | nil =>
    cases xs2 with
    | nil => simpa using h
    | cons b t =>
      rw [List.nil_append, List.cons_append] at h
      injection h with h1 h2
      exact absurd (by rw [h1]; exact List.mem_cons_self b t) hx2
  | cons a t ih =>
    cases xs2 with
    | nil =>
      rw [List.nil_append, List.cons_append] at h
      injection h with h1 h2
      exact absurd (by rw [← h1]; exact List.mem_cons_self a t) hx
    | cons b t2 =>
      rw [List.cons_append, List.cons_append] at h
      injection h with h1 h2
      obtain ⟨e1, e2⟩ := ih (fun hm => hx (List.mem_cons_of_mem a hm))
        (fun hm => hx2 (List.mem_cons_of_mem b hm)) h2
      exact ⟨by rw [h1, e1], e2⟩

/-- C9: the stored task-file name is the deterministic function
`str(userId) + "_" + str(taskId) + "_" + originalName` of
(userId, itemId, originalName), and any two submissions with distinct
(userId, itemId) pairs get distinct stored names, whatever the original
filenames are — decimal ids contain no underscore, so the first two
underscore-separated fields determine the pair. -/
theorem C9_stored_filenames_never_collide :
    (∀ (u t : Nat) (o : List Char),
      storedFilename u t o = decRepr u ++ '_' :: (decRepr t ++ '_' :: o)) ∧
    (∀ (u1 t1 u2 t2 : Nat) (o1 o2 : List Char), (u1, t1) ≠ (u2, t2) →
      storedFilename u1 t1 o1 ≠ storedFilename u2 t2 o2) := by
  have hshape : ∀ (u t : Nat) (o : List Char),
      storedFilename u t o = decRepr u ++ '_' :: (decRepr t ++ '_' :: o) := by
    intro u t o
    simp only [storedFilename, List.append_assoc, List.cons_append]
  refine ⟨hshape, ?_⟩
  intro u1 t1 u2 t2 o1 o2 hne h
  rw [hshape, hshape] at h
  obtain ⟨e1, e2⟩ := append_underscore_inj (underscore_not_mem_decRepr u1)
    (underscore_not_mem_decRepr u2) h
  obtain ⟨e3, _⟩ := append_underscore_inj (underscore_not_mem_decRepr t1)
    (underscore_not_mem_decRepr t2) e2
  exact hne (by rw [decRepr_inj e1, decRepr_inj e3])

/-- C9 witness: user 1 / task 2 and user 1 / task 22 are distinct pairs, so
their stored names differ even with the same original filename. -/
theorem C9_witness :
    ((1, 2) : Nat × Nat) ≠ (1, 22) ∧
    storedFilename 1 2 ['a'] ≠ storedFilename 1 22 ['a'] :=
  ⟨by decide, C9_stored_filenames_never_collide.2 1 2 1 22 ['a'] ['a'] (by decide)⟩

end Eco
